import Mathlib

/-!
Verification of the forecasting core of the financial-forecasting-service
repository (Go).  The computation is embedded shallowly:

* Go `float64` arithmetic is idealised as exact rational arithmetic (`ℚ`);
  `math.Round` (round half away from zero) and the per-period
  `math.Round(x*10000)/10000` / `math.Round(x*100)/100` roundings of
  `service/forecasting_service.go` are modelled exactly on `ℚ`.
* `math.Pow(1+g, float64(n))` with a natural exponent is modelled as the
  exact power `(1+g)^n`; `math.Sin` has no exact rational counterpart, so
  the moving-average model is parametrised by an arbitrary function
  `sinA : ℚ → ℚ` standing for Go's `math.Sin` — no theorem below depends
  on its values.
* Go `time.Time` only reaches the output through `GeneratedAt` and each
  period's date (`time.Now().AddDate(0,0,period)`), so generation time is
  an integer day-count parameter `now`, and a period's date is `now + period`
  (the `"2006-01-02"` string formatting is irrelevant to every claim).
* The `map[string]models.ForecastResponse` cache is an association list
  (most recent store first), exactly the observable behaviour of the Go map
  under the service's lookup/store/clear operations.
* The upstream `currencyClient.GetRates` call is an external collaborator;
  its outcome is a parameter `ratesResult : Except String (List (String × ℚ))`
  (an error or the fetched target-currency ↦ rate mapping).
-/

namespace ForecastService

/-- Go `math.Round x`: round to the nearest integer, halves away from zero. -/
def goRound (x : ℚ) : ℚ :=
  if 0 ≤ x then ((⌊x + 1/2⌋ : ℤ) : ℚ) else ((-⌊-x + 1/2⌋ : ℤ) : ℚ)

/-- `math.Round(x*10000)/10000` — round to 4 decimal places. -/
def round4 (x : ℚ) : ℚ := goRound (x * 10000) / 10000

/-- `math.Round(x*100)/100` — round to 2 decimal places. -/
def round2 (x : ℚ) : ℚ := goRound (x * 100) / 100

/-- Go `int(x)` on a float: truncation toward zero. -/
def truncInt (x : ℚ) : ℤ := if 0 ≤ x then ⌊x⌋ else ⌈x⌉

/-- `models.ForecastRequest` (models/models.go). -/
structure ForecastRequest where
  BaseCurrency : String
  TargetCurrency : String
  Amount : ℚ
  Periods : ℤ
  ForecastType : String
deriving DecidableEq, Repr

/-- `models.ForecastPeriod` (models/models.go); `Date` is the day-count
`now + period` produced by `time.Now().AddDate(0, 0, period)`. -/
structure ForecastPeriod where
  Period : ℤ
  Date : ℤ
  Rate : ℚ
  Amount : ℚ
  Change : ℚ
  ChangePercent : ℚ
deriving DecidableEq, Repr

/-- `models.ForecastResponse` (models/models.go); `GeneratedAt` is the
day-count `now`. -/
structure ForecastResponse where
  BaseCurrency : String
  TargetCurrency : String
  CurrentRate : ℚ
  Amount : ℚ
  ForecastType : String
  Periods : ℤ
  Forecasts : List ForecastPeriod
  GeneratedAt : ℤ
  ConfidenceScore : ℚ
deriving DecidableEq, Repr

/-- `models.MultiCurrencyForecastRequest`. -/
structure MultiCurrencyForecastRequest where
  BaseCurrency : String
  Currencies : List String
  Amount : ℚ
  Periods : ℤ
  ForecastType : String
deriving DecidableEq, Repr

/-- `models.MultiCurrencyForecastResponse`; the `Currencies` map is an
association list in request-currency order. -/
structure MultiCurrencyForecastResponse where
  BaseCurrency : String
  Amount : ℚ
  ForecastType : String
  Periods : ℤ
  Currencies : List (String × List ForecastPeriod)
  GeneratedAt : ℤ
deriving DecidableEq, Repr

/-- The parts of `config.Config` the forecasting service reads. -/
structure Config where
  DefaultForecastPeriods : ℤ
  SupportedCurrencies : List String
deriving DecidableEq, Repr

/-- `generateLinearForecast` (forecasting_service.go lines 245–275).
The loop `for i := 0; i < req.Periods; i++` is the map over
`List.range req.Periods.toNat` (validation guarantees `Periods ≥ 0`;
Go's `make` would panic on a negative length). -/
def generateLinearForecast (currentRate : ℚ) (req : ForecastRequest) (now : ℤ) :
    List ForecastPeriod × ℚ :=
  let trend : ℚ := 1/1000
  let forecasts := (List.range req.Periods.toNat).map (fun (i : ℕ) =>
    let period : ℤ := (i : ℤ) + 1
    let rate : ℚ := currentRate * (1 + trend * (period : ℚ))
    let amount : ℚ := req.Amount * rate
    let prevRate : ℚ := currentRate * (1 + trend * (i : ℚ))
    let change : ℚ := if 0 < i then rate - prevRate else 0
    let changePercent : ℚ := if 0 < i then (rate - prevRate) / prevRate * 100 else 0
    { Period := period
      Date := now + period
      Rate := round4 rate
      Amount := round2 amount
      Change := round4 change
      ChangePercent := round2 changePercent })
  (forecasts, 7/10)

/-- `generateExponentialForecast` (forecasting_service.go lines 278–308).
`math.Pow(1+growthRate, float64(period))` is the exact power. -/
def generateExponentialForecast (currentRate : ℚ) (req : ForecastRequest) (now : ℤ) :
    List ForecastPeriod × ℚ :=
  let growthRate : ℚ := 2/1000
  let forecasts := (List.range req.Periods.toNat).map (fun (i : ℕ) =>
    let period : ℤ := (i : ℤ) + 1
    let rate : ℚ := currentRate * (1 + growthRate) ^ (i + 1)
    let amount : ℚ := req.Amount * rate
    let prevRate : ℚ := currentRate * (1 + growthRate) ^ i
    let change : ℚ := if 0 < i then rate - prevRate else 0
    let changePercent : ℚ := if 0 < i then (rate - prevRate) / prevRate * 100 else 0
    { Period := period
      Date := now + period
      Rate := round4 rate
      Amount := round2 amount
      Change := round4 change
      ChangePercent := round2 changePercent })
  (forecasts, 6/10)

/-- `generateMovingAverageForecast` (forecasting_service.go lines 311–345).
`sinA` stands for Go's `math.Sin`. -/
def generateMovingAverageForecast (sinA : ℚ → ℚ) (currentRate : ℚ)
    (req : ForecastRequest) (now : ℤ) : List ForecastPeriod × ℚ :=
  let volatility : ℚ := 1/100
  let baseRate := currentRate
  let forecasts := (List.range req.Periods.toNat).map (fun (i : ℕ) =>
    let period : ℤ := (i : ℤ) + 1
    let variation : ℚ := sinA ((period : ℚ) * (1/10)) * volatility
    let rate : ℚ := baseRate * (1 + variation)
    let amount : ℚ := req.Amount * rate
    let prevVariation : ℚ := sinA ((i : ℚ) * (1/10)) * volatility
    let prevRate : ℚ := baseRate * (1 + prevVariation)
    let change : ℚ := if 0 < i then rate - prevRate else 0
    let changePercent : ℚ := if 0 < i then (rate - prevRate) / prevRate * 100 else 0
    { Period := period
      Date := now + period
      Rate := round4 rate
      Amount := round2 amount
      Change := round4 change
      ChangePercent := round2 changePercent })
  (forecasts, 5/10)

/-- `isCurrencySupported` (forecasting_service.go lines 230–237): linear scan
of `fs.config.SupportedCurrencies`. -/
def isCurrencySupported (cfg : Config) (currency : String) : Bool :=
  cfg.SupportedCurrencies.contains currency

/-- `validateForecastRequest` (forecasting_service.go lines 201–227).
`none` = success; `some msg` = the first violated check's message. -/
def validateForecastRequest (cfg : Config) (req : ForecastRequest) : Option String :=
  if req.BaseCurrency = "" then some "base currency is required"
  else if req.TargetCurrency = "" then some "target currency is required"
  else if req.Amount ≤ 0 then some "amount must be greater than 0"
  else if req.Periods < 0 then some "periods cannot be negative"
  else if 365 < req.Periods then some "periods cannot exceed 365"
  else if ¬ isCurrencySupported cfg req.BaseCurrency then
    some ("base currency " ++ req.BaseCurrency ++ " is not supported")
  else if ¬ isCurrencySupported cfg req.TargetCurrency then
    some ("target currency " ++ req.TargetCurrency ++ " is not supported")
  else none

/-- Decimal digit to its ASCII character. -/
def digitChar (d : ℕ) : Char := Char.ofNat (48 + d)

/-- Decimal rendering of a natural number, as produced by `fmt.Sprintf("%d", ·)`. -/
def natDecimal (n : ℕ) : String :=
  if n = 0 then "0" else ⟨((Nat.digits 10 n).map digitChar).reverse⟩

/-- Decimal rendering of an integer, as produced by `fmt.Sprintf("%d", ·)`. -/
def intDecimal (i : ℤ) : String :=
  if i < 0 then "-" ++ natDecimal (-i).toNat else natDecimal i.toNat

/-- `generateCacheKey` (forecasting_service.go lines 240–242):
`fmt.Sprintf("%s_%s_%s_%d_%d", base, target, type, int(amount), periods)`. -/
def generateCacheKey (req : ForecastRequest) : String :=
  req.BaseCurrency ++ "_" ++ req.TargetCurrency ++ "_" ++ req.ForecastType ++ "_" ++
    intDecimal (truncInt req.Amount) ++ "_" ++ intDecimal req.Periods

/-- The service's forecast cache `map[string]models.ForecastResponse`, as an
association list with the most recent store first. -/
abbrev Cache := List (String × ForecastResponse)

/-- Map read `fs.cache[cacheKey]`. -/
def cacheLookup (cache : Cache) (k : String) : Option ForecastResponse :=
  match cache with
  | [] => none
  | (k', v) :: rest => if k' = k then some v else cacheLookup rest k

/-- Map write `fs.cache[cacheKey] = *response`. -/
def cacheStore (cache : Cache) (k : String) (v : ForecastResponse) : Cache :=
  (k, v) :: cache

/-- The defaulting step of `GenerateForecast` (forecasting_service.go
lines 44–50), which writes through the request pointer. -/
def applyDefaults (cfg : Config) (req : ForecastRequest) : ForecastRequest :=
  { req with
    Periods := if req.Periods = 0 then cfg.DefaultForecastPeriods else req.Periods
    ForecastType := if req.ForecastType = "" then "linear" else req.ForecastType }

/-- Association-list lookup in the fetched rate map `rates.Rates[currency]`. -/
def lookupRate (rates : List (String × ℚ)) (currency : String) : Option ℚ :=
  match rates with
  | [] => none
  | (c, r) :: rest => if c = currency then some r else lookupRate rest currency

/-- The `switch req.ForecastType` dispatch of `GenerateForecast`
(forecasting_service.go lines 78–87); `none` is the `default` branch. -/
def dispatchModel (sinA : ℚ → ℚ) (forecastType : String) (currentRate : ℚ)
    (req : ForecastRequest) (now : ℤ) : Option (List ForecastPeriod × ℚ) :=
  if forecastType = "linear" then some (generateLinearForecast currentRate req now)
  else if forecastType = "exponential" then some (generateExponentialForecast currentRate req now)
  else if forecastType = "moving_average" then
    some (generateMovingAverageForecast sinA currentRate req now)
  else none

/-- `GenerateForecast` (forecasting_service.go lines 38–109).
Returns the call's result, the request as left behind the caller's pointer,
and the cache after the call.  `ratesResult` is the outcome the external
`currencyClient.GetRates` call would produce (it is consulted only on the
cache-miss path, as in the source). -/
def GenerateForecast (cfg : Config) (sinA : ℚ → ℚ)
    (ratesResult : Except String (List (String × ℚ))) (now : ℤ)
    (cache : Cache) (req : ForecastRequest) :
    Except String ForecastResponse × ForecastRequest × Cache :=
  match validateForecastRequest cfg req with
  | some msg => (.error ("invalid request: " ++ msg), req, cache)
  | none =>
    let req := applyDefaults cfg req
    let cacheKey := generateCacheKey req
    match cacheLookup cache cacheKey with
    | some cached => (.ok cached, req, cache)
    | none =>
      match ratesResult with
      | .error e => (.error ("failed to fetch exchange rates: " ++ e), req, cache)
      | .ok rates =>
        match lookupRate rates req.TargetCurrency with
        | none =>
          (.error ("target currency " ++ req.TargetCurrency ++
            " not found in exchange rates"), req, cache)
        | some currentRate =>
          match dispatchModel sinA req.ForecastType currentRate req now with
          | none => (.error ("unsupported forecast type: " ++ req.ForecastType), req, cache)
          | some (forecasts, confidenceScore) =>
            let response : ForecastResponse :=
              { BaseCurrency := req.BaseCurrency
                TargetCurrency := req.TargetCurrency
                CurrentRate := currentRate
                Amount := req.Amount
                ForecastType := req.ForecastType
                Periods := req.Periods
                Forecasts := forecasts
                GeneratedAt := now
                ConfidenceScore := confidenceScore }
            (.ok response, req, cacheStore cache cacheKey response)

/-- The defaulting step of `GenerateMultiCurrencyForecast`
(forecasting_service.go lines 113–119). -/
def applyDefaultsMulti (cfg : Config) (req : MultiCurrencyForecastRequest) :
    MultiCurrencyForecastRequest :=
  { req with
    Periods := if req.Periods = 0 then cfg.DefaultForecastPeriods else req.Periods
    ForecastType := if req.ForecastType = "" then "linear" else req.ForecastType }

/-- `GenerateMultiCurrencyForecast` (forecasting_service.go lines 112–169).
No validation and no cache use; a currency absent from the fetched rates is
skipped (`continue`); the `switch` has no `default`, so an unknown model name
leaves the `forecasts` slice nil. -/
def GenerateMultiCurrencyForecast (cfg : Config) (sinA : ℚ → ℚ)
    (ratesResult : Except String (List (String × ℚ))) (now : ℤ)
    (req : MultiCurrencyForecastRequest) :
    Except String MultiCurrencyForecastResponse × MultiCurrencyForecastRequest :=
  let req := applyDefaultsMulti cfg req
  match ratesResult with
  | .error e => (.error ("failed to fetch exchange rates: " ++ e), req)
  | .ok rates =>
    let currencyForecasts := req.Currencies.filterMap (fun currency =>
      match lookupRate rates currency with
      | none => none
      | some rate =>
        let forecastReq : ForecastRequest :=
          { BaseCurrency := req.BaseCurrency
            TargetCurrency := currency
            Amount := req.Amount
            Periods := req.Periods
            ForecastType := req.ForecastType }
        let forecasts : List ForecastPeriod :=
          if req.ForecastType = "linear" then (generateLinearForecast rate forecastReq now).1
          else if req.ForecastType = "exponential" then
            (generateExponentialForecast rate forecastReq now).1
          else if req.ForecastType = "moving_average" then
            (generateMovingAverageForecast sinA rate forecastReq now).1
          else []
        some (currency, forecasts))
    (.ok
      { BaseCurrency := req.BaseCurrency
        Amount := req.Amount
        ForecastType := req.ForecastType
        Periods := req.Periods
        Currencies := currencyForecasts
        GeneratedAt := now }, req)

/-! ### Helper lemmas: decimal rendering is injective -/

theorem digitChar_toNat {d : ℕ} (hd : d < 10) : (digitChar d).toNat = 48 + d := by
  revert hd
  revert d
  decide

theorem digitChar_inj {d1 d2 : ℕ} (h1 : d1 < 10) (h2 : d2 < 10)
    (h : digitChar d1 = digitChar d2) : d1 = d2 := by
  have := congrArg Char.toNat h
  rw [digitChar_toNat h1, digitChar_toNat h2] at this
  omega

theorem map_digitChar_inj : ∀ {l1 l2 : List ℕ}, (∀ d ∈ l1, d < 10) → (∀ d ∈ l2, d < 10) →
    l1.map digitChar = l2.map digitChar → l1 = l2
  | [], [], _, _, _ => rfl
  | [], _ :: _, _, _, h => by simp at h
  | _ :: _, [], _, _, h => by simp at h
  | a :: l1, b :: l2, h1, h2, h => by
    simp only [List.map_cons, List.cons.injEq] at h
    have ha := h1 a (by simp)
    have hb := h2 b (by simp)
    have : l1 = l2 :=
      map_digitChar_inj (fun d hd => h1 d (by simp [hd])) (fun d hd => h2 d (by simp [hd])) h.2
    rw [digitChar_inj ha hb h.1, this]

theorem natDecimal_data_ge {n : ℕ} {c : Char} (hc : c ∈ (natDecimal n).data) :
    48 ≤ c.toNat := by
  unfold natDecimal at hc
  split at hc
  · simp only [String.data] at hc
    have : c = '0' := by simpa using hc
    subst this
    decide
  · simp only [List.mem_reverse, List.mem_map] at hc
    obtain ⟨d, hd, rfl⟩ := hc
    have : d < 10 := Nat.digits_lt_base (by norm_num) hd
    rw [digitChar_toNat this]
    omega

theorem natDecimal_inj : ∀ {m n : ℕ}, natDecimal m = natDecimal n → m = n := by
  have key : ∀ {n : ℕ}, n ≠ 0 → natDecimal n ≠ "0" := by
    intro n hn h
    have hd := congrArg String.data h
    unfold natDecimal at hd
    rw [if_neg hn] at hd
    simp only [String.data] at hd
    have hrev : (Nat.digits 10 n).map digitChar = ['0'] := by
      have := congrArg List.reverse hd
      simpa using this
    have hdig : Nat.digits 10 n = [0] := by
      rcases hl : Nat.digits 10 n with _ | ⟨d, rest⟩
      · rw [hl] at hrev; simp at hrev
      · rw [hl] at hrev
        rcases rest with _ | ⟨d2, rest2⟩
        · simp only [List.map_cons, List.map_nil, List.cons.injEq] at hrev
          have hdlt : d < 10 := Nat.digits_lt_base (by norm_num) (by rw [hl]; simp)
          have : d = 0 := digitChar_inj hdlt (by norm_num) (by simpa using hrev.1)
          rw [this]
        · simp at hrev
    have := Nat.ofDigits_digits 10 n
    rw [hdig] at this
    simp [Nat.ofDigits] at this
    exact hn this.symm
  intro m n h
  by_cases hm : m = 0 <;> by_cases hn : n = 0
  · rw [hm, hn]
  · exact absurd h.symm (by simpa [natDecimal, hm] using key hn)
  · exact absurd h (by simpa [natDecimal, hn] using key hm)
  · have hd := congrArg String.data h
    unfold natDecimal at hd
    rw [if_neg hm, if_neg hn] at hd
    simp only [String.data] at hd
    have hrev := congrArg List.reverse hd
    simp only [List.reverse_reverse] at hrev
    have hdig : Nat.digits 10 m = Nat.digits 10 n :=
      map_digitChar_inj (fun d hd => Nat.digits_lt_base (by norm_num) hd)
        (fun d hd => Nat.digits_lt_base (by norm_num) hd) hrev
    have := congrArg (Nat.ofDigits 10) hdig
    rwa [Nat.ofDigits_digits, Nat.ofDigits_digits] at this

theorem intDecimal_inj : ∀ {i j : ℤ}, intDecimal i = intDecimal j → i = j := by
  have neg_case : ∀ {i j : ℤ}, i < 0 → ¬ j < 0 → intDecimal i ≠ intDecimal j := by
    intro i j hi hj h
    unfold intDecimal at h
    rw [if_pos hi, if_neg hj] at h
    have hd := congrArg String.data h
    rw [String.data_append] at hd
    have : ('-' : Char) ∈ (natDecimal j.toNat).data := by
      rw [← hd]
      simp [show ("-" : String).data = ['-'] from rfl]
    have := natDecimal_data_ge this
    simp at this
  intro i j h
  by_cases hi : i < 0 <;> by_cases hj : j < 0
  · unfold intDecimal at h
    rw [if_pos hi, if_pos hj] at h
    have hd := congrArg String.data h
    rw [String.data_append, String.data_append] at hd
    simp only [show ("-" : String).data = ['-'] from rfl, List.singleton_append,
      List.cons.injEq, true_and] at hd
    have := natDecimal_inj (String.ext hd)
    omega
  · exact absurd h (neg_case hi hj)
  · exact absurd h.symm (neg_case hj hi)
  · unfold intDecimal at h
    rw [if_neg hi, if_neg hj] at h
    have := natDecimal_inj h
    omega

/-- The cache key in list-of-characters form. -/
theorem generateCacheKey_data (req : ForecastRequest) :
    (generateCacheKey req).data =
      req.BaseCurrency.data ++ '_' :: (req.TargetCurrency.data ++ '_' ::
        (req.ForecastType.data ++ '_' :: ((intDecimal (truncInt req.Amount)).data ++ '_' ::
          (intDecimal req.Periods).data))) := by
  simp [generateCacheKey, String.data_append, show ("_" : String).data = ['_'] from rfl]

/-! ### Helper lemmas: rounding and the model functions -/

theorem goRound_mono {x y : ℚ} (h : x ≤ y) : goRound x ≤ goRound y := by
  unfold goRound
  split_ifs with hx hy hy
  · exact_mod_cast Int.floor_mono (by linarith)
  · exact absurd (le_trans hx h) hy
  · have h1 : (0:ℤ) ≤ ⌊y + 1/2⌋ := Int.floor_nonneg.mpr (by linarith)
    have h2 : (0:ℤ) ≤ ⌊-x + 1/2⌋ := Int.floor_nonneg.mpr (by push_neg at hx; linarith)
    exact_mod_cast (by omega : (-⌊-x + 1/2⌋ : ℤ) ≤ ⌊y + 1/2⌋)
  · have : -y + 1/2 ≤ -x + 1/2 := by linarith
    exact_mod_cast neg_le_neg (Int.floor_mono this)

theorem round4_mono {x y : ℚ} (h : x ≤ y) : round4 x ≤ round4 y := by
  unfold round4
  have := goRound_mono (mul_le_mul_of_nonneg_right h (by norm_num : (0:ℚ) ≤ 10000))
  exact (div_le_div_iff_of_pos_right (by norm_num : (0:ℚ) < 10000)).mpr this

theorem generateLinearForecast_length (r : ℚ) (req : ForecastRequest) (now : ℤ) :
    (generateLinearForecast r req now).1.length = req.Periods.toNat := by
  simp [generateLinearForecast]

theorem generateExponentialForecast_length (r : ℚ) (req : ForecastRequest) (now : ℤ) :
    (generateExponentialForecast r req now).1.length = req.Periods.toNat := by
  simp [generateExponentialForecast]

theorem generateMovingAverageForecast_length (sinA : ℚ → ℚ) (r : ℚ)
    (req : ForecastRequest) (now : ℤ) :
    (generateMovingAverageForecast sinA r req now).1.length = req.Periods.toNat := by
  simp [generateMovingAverageForecast]

theorem generateLinearForecast_rate (r : ℚ) (req : ForecastRequest) (now : ℤ) (i : ℕ)
    (h : i < (generateLinearForecast r req now).1.length) :
    ((generateLinearForecast r req now).1.get ⟨i, h⟩).Rate
      = round4 (r * (1 + (1/1000) * (((i : ℤ) + 1 : ℤ) : ℚ))) := by
  simp [generateLinearForecast]

theorem generateLinearForecast_amount (r : ℚ) (req : ForecastRequest) (now : ℤ) (i : ℕ)
    (h : i < (generateLinearForecast r req now).1.length) :
    ((generateLinearForecast r req now).1.get ⟨i, h⟩).Amount
      = round2 (req.Amount * (r * (1 + (1/1000) * (((i : ℤ) + 1 : ℤ) : ℚ)))) := by
  simp [generateLinearForecast]

theorem generateExponentialForecast_rate (r : ℚ) (req : ForecastRequest) (now : ℤ) (i : ℕ)
    (h : i < (generateExponentialForecast r req now).1.length) :
    ((generateExponentialForecast r req now).1.get ⟨i, h⟩).Rate
      = round4 (r * (1 + 2/1000) ^ (i + 1)) := by
  simp [generateExponentialForecast]

/-! ### Claim theorems -/

/-- C1: for every request with amount 1000, periods 5, model linear and a
fetched current rate of 1.2, the linear model emits
rate(n) = round₄(1.2·(1 + 0.001·n)) and amount(n) = round₂(1000·1.2·(1+0.001·n));
period 1 has rate 1.2012 and amount 1201.2, period 5 has rate 1.206; and in
general each period's rate and amount are recomputed from the original
current rate and the period index, never from the previous rounded output. -/
theorem C1_linear_scenario (b t ty : String) (now : ℤ) :
    ((generateLinearForecast (12/10) ⟨b, t, 1000, 5, ty⟩ now).1.map (·.Rate)
        = [12012/10000, 12024/10000, 12036/10000, 12048/10000, 1206/1000])
  ∧ ((generateLinearForecast (12/10) ⟨b, t, 1000, 5, ty⟩ now).1.map (·.Amount)
        = [12012/10, 12024/10, 12036/10, 12048/10, 1206])
  ∧ (∀ (r : ℚ) (req : ForecastRequest) (now2 : ℤ) (i : ℕ)
        (h : i < (generateLinearForecast r req now2).1.length),
        ((generateLinearForecast r req now2).1.get ⟨i, h⟩).Rate
            = round4 (r * (1 + (1/1000) * (((i : ℤ) + 1 : ℤ) : ℚ)))
      ∧ ((generateLinearForecast r req now2).1.get ⟨i, h⟩).Amount
            = round2 (req.Amount * (r * (1 + (1/1000) * (((i : ℤ) + 1 : ℤ) : ℚ))))) := by
  refine ⟨?_, ?_, fun r req now2 i h =>
    ⟨generateLinearForecast_rate r req now2 i h, generateLinearForecast_amount r req now2 i h⟩⟩
  all_goals
    simp only [generateLinearForecast, show ((5:ℤ)).toNat = 5 from rfl, List.range_succ,
      List.range_zero, List.map_append, List.map_cons, List.map_nil, List.nil_append,
      List.cons_append, Function.comp]
    norm_num [round4, round2, goRound]

/-- C1 witness: the scheme evaluated at a concrete input, discharging the
index-bound hypothesis of the third conjunct at period 1. -/
theorem C1_linear_scenario_witness :
    ((generateLinearForecast (12/10) ⟨"USD", "EUR", 1000, 5, "linear"⟩ 0).1.get
        ⟨0, by simp [generateLinearForecast]⟩).Rate
      = round4 ((12/10) * (1 + (1/1000) * (((0 : ℤ) + 1 : ℤ) : ℚ))) :=
  ((C1_linear_scenario "USD" "EUR" "linear" 0).2.2 (12/10) ⟨"USD", "EUR", 1000, 5, "linear"⟩
    0 0 (by simp [generateLinearForecast])).1

/-- C2: for every current rate, amount and period count P ≥ 0, each model
emits exactly P periods with period indices 1..P in order; confidences are
the fixed 0.7 / 0.6 / 0.5, all in (0,1]; and with P = 0 every model emits
the empty sequence (with its confidence unchanged). -/
theorem C2_model_shapes (sinA : ℚ → ℚ) (r : ℚ) (req : ForecastRequest) (now : ℤ)
    (h : 0 ≤ req.Periods) :
    ((generateLinearForecast r req now).1.length = req.Periods.toNat
      ∧ ((generateLinearForecast r req now).1.length : ℤ) = req.Periods
      ∧ (generateLinearForecast r req now).1.map (·.Period)
          = (List.range req.Periods.toNat).map (fun (i : ℕ) => (i : ℤ) + 1)
      ∧ (generateLinearForecast r req now).2 = 7/10)
  ∧ ((generateExponentialForecast r req now).1.length = req.Periods.toNat
      ∧ ((generateExponentialForecast r req now).1.length : ℤ) = req.Periods
      ∧ (generateExponentialForecast r req now).1.map (·.Period)
          = (List.range req.Periods.toNat).map (fun (i : ℕ) => (i : ℤ) + 1)
      ∧ (generateExponentialForecast r req now).2 = 6/10)
  ∧ ((generateMovingAverageForecast sinA r req now).1.length = req.Periods.toNat
      ∧ ((generateMovingAverageForecast sinA r req now).1.length : ℤ) = req.Periods
      ∧ (generateMovingAverageForecast sinA r req now).1.map (·.Period)
          = (List.range req.Periods.toNat).map (fun (i : ℕ) => (i : ℤ) + 1)
      ∧ (generateMovingAverageForecast sinA r req now).2 = 5/10)
  ∧ (req.Periods = 0 →
      (generateLinearForecast r req now).1 = []
        ∧ (generateExponentialForecast r req now).1 = []
        ∧ (generateMovingAverageForecast sinA r req now).1 = [])
  ∧ (0 < (generateLinearForecast r req now).2 ∧ (generateLinearForecast r req now).2 ≤ 1)
  ∧ (0 < (generateExponentialForecast r req now).2
      ∧ (generateExponentialForecast r req now).2 ≤ 1)
  ∧ (0 < (generateMovingAverageForecast sinA r req now).2
      ∧ (generateMovingAverageForecast sinA r req now).2 ≤ 1) := by
  refine ⟨⟨generateLinearForecast_length r req now, ?_, ?_, rfl⟩,
    ⟨generateExponentialForecast_length r req now, ?_, ?_, rfl⟩,
    ⟨generateMovingAverageForecast_length sinA r req now, ?_, ?_, rfl⟩,
    fun h0 => ?_, by norm_num [generateLinearForecast],
    by norm_num [generateExponentialForecast], by norm_num [generateMovingAverageForecast]⟩
  · rw [generateLinearForecast_length]; exact Int.toNat_of_nonneg h
  · simp [generateLinearForecast, List.map_map]
  · rw [generateExponentialForecast_length]; exact Int.toNat_of_nonneg h
  · simp [generateExponentialForecast, List.map_map]
  · rw [generateMovingAverageForecast_length]; exact Int.toNat_of_nonneg h
  · simp [generateMovingAverageForecast, List.map_map]
  · simp [generateLinearForecast, generateExponentialForecast, generateMovingAverageForecast, h0]

/-- C2 witness: the shape facts at a concrete input with P = 3. -/
theorem C2_model_shapes_witness :
    (generateLinearForecast (12/10) ⟨"USD", "EUR", 1000, 3, "linear"⟩ 0).1.length = 3
      ∧ (generateLinearForecast (12/10) ⟨"USD", "EUR", 1000, 3, "linear"⟩ 0).2 = 7/10 :=
  ⟨((C2_model_shapes (fun _ => 0) (12/10) ⟨"USD", "EUR", 1000, 3, "linear"⟩ 0
      (by norm_num)).1.1).trans rfl,
    (C2_model_shapes (fun _ => 0) (12/10) ⟨"USD", "EUR", 1000, 3, "linear"⟩ 0
      (by norm_num)).1.2.2.2⟩

/-- C3 counterexample: with currentRate = 0.01 and P = 2, the emitted
(rounded) exponential rates are [0.01, 0.01] — not strictly increasing, so
the claim as stated is false. -/
theorem C3_counterexample :
    ¬ List.Chain' (· < ·)
        ((generateExponentialForecast (1/100) ⟨"USD", "EUR", 1000, 2, "exponential"⟩ 0).1.map
          (·.Rate)) := by
  have hs : (generateExponentialForecast (1/100) ⟨"USD", "EUR", 1000, 2, "exponential"⟩ 0).1.map
      (·.Rate) = [1/100, 1/100] := by
    simp only [generateExponentialForecast, show ((2:ℤ)).toNat = 2 from rfl, List.range_succ,
      List.range_zero, List.map_append, List.map_cons, List.map_nil, List.nil_append,
      List.cons_append, Function.comp]
    norm_num [round4, goRound]
  rw [hs]
  simp

/-- C3 (amended): for every currentRate > 0, consecutive emitted exponential
rates are non-decreasing after the per-period rounding to 4 decimal places,
and the underlying unrounded rates currentRate·1.002ⁿ are strictly
increasing; strictness can be lost to rounding (see the counterexample). -/
theorem C3_exponential_monotone (r : ℚ) (hr : 0 < r) (req : ForecastRequest) (now : ℤ)
    (i : ℕ) (h : i + 1 < (generateExponentialForecast r req now).1.length) :
    ((generateExponentialForecast r req now).1.get ⟨i, Nat.lt_of_succ_lt h⟩).Rate
        ≤ ((generateExponentialForecast r req now).1.get ⟨i + 1, h⟩).Rate
      ∧ r * (1 + 2/1000) ^ (i + 1) < r * (1 + 2/1000) ^ (i + 2) := by
  have hX : (0:ℚ) < (1 + 2/1000) ^ (i + 1) := pow_pos (by norm_num) _
  have hpow : r * (1 + 2/1000) ^ (i + 1) < r * (1 + 2/1000) ^ (i + 2) := by
    have hlt : (1 + 2/1000 : ℚ) ^ (i + 1) < (1 + 2/1000) ^ (i + 2) := by
      have := (lt_mul_iff_one_lt_right hX).mpr (by norm_num : (1:ℚ) < 1 + 2/1000)
      calc (1 + 2/1000 : ℚ) ^ (i + 1) < (1 + 2/1000) ^ (i + 1) * (1 + 2/1000) := this
        _ = (1 + 2/1000) ^ (i + 2) := by ring
    exact mul_lt_mul_of_pos_left hlt hr
  refine ⟨?_, hpow⟩
  rw [generateExponentialForecast_rate, generateExponentialForecast_rate]
  exact round4_mono hpow.le

/-- C3 witness: the amended monotonicity at currentRate = 1.2, P = 2, n = 1. -/
theorem C3_exponential_monotone_witness :
    ((generateExponentialForecast (12/10) ⟨"USD", "EUR", 1000, 2, "exponential"⟩ 0).1.get
        ⟨0, by simp [generateExponentialForecast]⟩).Rate
      ≤ ((generateExponentialForecast (12/10) ⟨"USD", "EUR", 1000, 2, "exponential"⟩ 0).1.get
        ⟨1, by simp [generateExponentialForecast]⟩).Rate :=
  (C3_exponential_monotone (12/10) (by norm_num) ⟨"USD", "EUR", 1000, 2, "exponential"⟩ 0 0
    (by simp [generateExponentialForecast])).1

/-- Success of `validateForecastRequest`, characterised. -/
theorem validate_none_iff (cfg : Config) (req : ForecastRequest) :
    validateForecastRequest cfg req = none ↔
      (req.BaseCurrency ≠ "" ∧ req.TargetCurrency ≠ "" ∧ 0 < req.Amount ∧
       0 ≤ req.Periods ∧ req.Periods ≤ 365 ∧
       req.BaseCurrency ∈ cfg.SupportedCurrencies ∧
       req.TargetCurrency ∈ cfg.SupportedCurrencies) := by
  unfold validateForecastRequest isCurrencySupported
  split_ifs with h1 h2 h3 h4 h5 h6 h7 <;>
    simp_all [not_le, not_lt, le_of_lt]

/-- C4: validation succeeds iff base/target are non-empty, amount > 0,
0 ≤ periods ≤ 365 and both currencies are in the configured supported set;
on failure the first violated check in source order is reported. -/
theorem C4_validation (cfg : Config) (req : ForecastRequest) :
    (validateForecastRequest cfg req = none ↔
      (req.BaseCurrency ≠ "" ∧ req.TargetCurrency ≠ "" ∧ 0 < req.Amount ∧
       0 ≤ req.Periods ∧ req.Periods ≤ 365 ∧
       req.BaseCurrency ∈ cfg.SupportedCurrencies ∧
       req.TargetCurrency ∈ cfg.SupportedCurrencies))
  ∧ (req.BaseCurrency = "" →
      validateForecastRequest cfg req = some "base currency is required")
  ∧ (req.BaseCurrency ≠ "" → req.TargetCurrency = "" →
      validateForecastRequest cfg req = some "target currency is required")
  ∧ (req.BaseCurrency ≠ "" → req.TargetCurrency ≠ "" → req.Amount ≤ 0 →
      validateForecastRequest cfg req = some "amount must be greater than 0")
  ∧ (req.BaseCurrency ≠ "" → req.TargetCurrency ≠ "" → 0 < req.Amount →
      req.Periods < 0 →
      validateForecastRequest cfg req = some "periods cannot be negative")
  ∧ (req.BaseCurrency ≠ "" → req.TargetCurrency ≠ "" → 0 < req.Amount →
      0 ≤ req.Periods → 365 < req.Periods →
      validateForecastRequest cfg req = some "periods cannot exceed 365")
  ∧ (req.BaseCurrency ≠ "" → req.TargetCurrency ≠ "" → 0 < req.Amount →
      0 ≤ req.Periods → req.Periods ≤ 365 →
      req.BaseCurrency ∉ cfg.SupportedCurrencies →
      validateForecastRequest cfg req =
        some ("base currency " ++ req.BaseCurrency ++ " is not supported"))
  ∧ (req.BaseCurrency ≠ "" → req.TargetCurrency ≠ "" → 0 < req.Amount →
      0 ≤ req.Periods → req.Periods ≤ 365 →
      req.BaseCurrency ∈ cfg.SupportedCurrencies →
      req.TargetCurrency ∉ cfg.SupportedCurrencies →
      validateForecastRequest cfg req =
        some ("target currency " ++ req.TargetCurrency ++ " is not supported")) := by
  refine ⟨validate_none_iff cfg req, ?_, ?_, ?_, ?_, ?_, ?_, ?_⟩
  · intro h1
    simp [validateForecastRequest, h1]
  · intro h1 h2
    simp [validateForecastRequest, h1, h2]
  · intro h1 h2 h3
    simp [validateForecastRequest, h1, h2, h3]
  · intro h1 h2 h3 h4
    simp [validateForecastRequest, h1, h2, not_le.mpr h3, h4]
  · intro h1 h2 h3 h4 h5
    simp [validateForecastRequest, h1, h2, not_le.mpr h3, not_lt.mpr h4, h5]
  · intro h1 h2 h3 h4 h5 h6
    simp [validateForecastRequest, isCurrencySupported, h1, h2, not_le.mpr h3,
      not_lt.mpr h4, not_lt.mpr h5, h6]
  · intro h1 h2 h3 h4 h5 h6 h7
    simp [validateForecastRequest, isCurrencySupported, h1, h2, not_le.mpr h3,
      not_lt.mpr h4, not_lt.mpr h5, h6, h7]

/-- C4 witness: concrete accept/reject decisions under the supported set
{USD, EUR, GBP}: periods 365 and 0 accepted; amount 0, periods 366 and an
unsupported target rejected with their first-violation messages. -/
theorem C4_validation_witness :
    (validateForecastRequest ⟨30, ["USD", "EUR", "GBP"]⟩ ⟨"USD", "EUR", 1000, 365, "linear"⟩
      = none)
  ∧ (validateForecastRequest ⟨30, ["USD", "EUR", "GBP"]⟩ ⟨"USD", "EUR", 1000, 0, "linear"⟩
      = none)
  ∧ (validateForecastRequest ⟨30, ["USD", "EUR", "GBP"]⟩ ⟨"USD", "EUR", 0, 5, "linear"⟩
      = some "amount must be greater than 0")
  ∧ (validateForecastRequest ⟨30, ["USD", "EUR", "GBP"]⟩ ⟨"USD", "EUR", 1000, 366, "linear"⟩
      = some "periods cannot exceed 365")
  ∧ (validateForecastRequest ⟨30, ["USD", "EUR", "GBP"]⟩ ⟨"USD", "ZZZ", 1000, 5, "linear"⟩
      = some "target currency ZZZ is not supported") :=
  ⟨(C4_validation ⟨30, ["USD", "EUR", "GBP"]⟩ ⟨"USD", "EUR", 1000, 365, "linear"⟩).1.mpr
      ⟨by simp, by simp, by norm_num, by norm_num, by norm_num, by simp, by simp⟩,
    (C4_validation ⟨30, ["USD", "EUR", "GBP"]⟩ ⟨"USD", "EUR", 1000, 0, "linear"⟩).1.mpr
      ⟨by simp, by simp, by norm_num, by norm_num, by norm_num, by simp, by simp⟩,
    (C4_validation ⟨30, ["USD", "EUR", "GBP"]⟩ ⟨"USD", "EUR", 0, 5, "linear"⟩).2.2.2.1
      (by simp) (by simp) (by norm_num),
    (C4_validation ⟨30, ["USD", "EUR", "GBP"]⟩ ⟨"USD", "EUR", 1000, 366, "linear"⟩).2.2.2.2.2.1
      (by simp) (by simp) (by norm_num) (by norm_num) (by norm_num),
    (C4_validation ⟨30, ["USD", "EUR", "GBP"]⟩ ⟨"USD", "ZZZ", 1000, 5, "linear"⟩).2.2.2.2.2.2.2
      (by simp) (by simp) (by norm_num) (by norm_num) (by norm_num) (by simp) (by simp)⟩

/-! ### Helper lemmas: the orchestrator -/

theorem applyDefaults_BaseCurrency (cfg : Config) (req : ForecastRequest) :
    (applyDefaults cfg req).BaseCurrency = req.BaseCurrency := rfl

theorem applyDefaults_TargetCurrency (cfg : Config) (req : ForecastRequest) :
    (applyDefaults cfg req).TargetCurrency = req.TargetCurrency := rfl

theorem applyDefaults_Amount (cfg : Config) (req : ForecastRequest) :
    (applyDefaults cfg req).Amount = req.Amount := rfl

theorem applyDefaults_ForecastType_of_ne (cfg : Config) (req : ForecastRequest)
    (h : req.ForecastType ≠ "") : (applyDefaults cfg req).ForecastType = req.ForecastType := by
  simp [applyDefaults, h]

theorem dispatchModel_eq_none (sinA : ℚ → ℚ) (ty : String) (r : ℚ)
    (req : ForecastRequest) (now : ℤ)
    (h : ty ∉ (["linear", "exponential", "moving_average"] : List String)) :
    dispatchModel sinA ty r req now = none := by
  have h1 : ty ≠ "linear" := fun e => h (by rw [e]; simp)
  have h2 : ty ≠ "exponential" := fun e => h (by rw [e]; simp)
  have h3 : ty ≠ "moving_average" := fun e => h (by rw [e]; simp)
  simp [dispatchModel, h1, h2, h3]

/-- Every branch of `GenerateForecast` either leaves the cache untouched, or
returns `.ok resp` and stores exactly `resp` under the defaulted request's key. -/
theorem GenerateForecast_cases (cfg : Config) (sinA : ℚ → ℚ)
    (rr : Except String (List (String × ℚ))) (now : ℤ) (cache : Cache)
    (req : ForecastRequest) :
    (GenerateForecast cfg sinA rr now cache req).2.2 = cache
  ∨ ∃ resp, (GenerateForecast cfg sinA rr now cache req).1 = .ok resp
      ∧ (GenerateForecast cfg sinA rr now cache req).2.2 =
          cacheStore cache (generateCacheKey (applyDefaults cfg req)) resp := by
  unfold GenerateForecast
  split
  · exact Or.inl rfl
  · dsimp only
    split
    · exact Or.inl rfl
    · split
      · exact Or.inl rfl
      · split
        · exact Or.inl rfl
        · split
          · exact Or.inl rfl
          · exact Or.inr ⟨_, rfl, rfl⟩

/-- After validation succeeds, every branch of `GenerateForecast` leaves the
defaulted request behind the caller's pointer. -/
theorem GenerateForecast_req (cfg : Config) (sinA : ℚ → ℚ)
    (rr : Except String (List (String × ℚ))) (now : ℤ) (cache : Cache)
    (req : ForecastRequest) (hv : validateForecastRequest cfg req = none) :
    (GenerateForecast cfg sinA rr now cache req).2.1 = applyDefaults cfg req := by
  unfold GenerateForecast
  rw [hv]
  dsimp only
  split
  · rfl
  · split
    · rfl
    · split
      · rfl
      · split
        · rfl
        · rfl

/-- `GenerateMultiCurrencyForecast` always leaves the defaulted request
behind the caller's pointer. -/
theorem GenerateMultiCurrencyForecast_req (cfg : Config) (sinA : ℚ → ℚ)
    (rr : Except String (List (String × ℚ))) (now : ℤ)
    (req : MultiCurrencyForecastRequest) :
    (GenerateMultiCurrencyForecast cfg sinA rr now req).2 = applyDefaultsMulti cfg req := by
  unfold GenerateMultiCurrencyForecast
  dsimp only
  split
  · rfl
  · rfl

/-- A successful `GenerateForecast` leaves its response retrievable in the
post-call cache under the defaulted request's cache key. -/
theorem GenerateForecast_ok_cached (cfg : Config) (sinA : ℚ → ℚ)
    (rr : Except String (List (String × ℚ))) (now : ℤ) (cache : Cache)
    (req : ForecastRequest) (resp : ForecastResponse)
    (h : (GenerateForecast cfg sinA rr now cache req).1 = .ok resp) :
    cacheLookup (GenerateForecast cfg sinA rr now cache req).2.2
      (generateCacheKey (applyDefaults cfg req)) = some resp := by
  cases hv : validateForecastRequest cfg req with
  | some msg => simp [GenerateForecast, hv] at h
  | none =>
    cases hcl : cacheLookup cache (generateCacheKey (applyDefaults cfg req)) with
    | some cached =>
      simp only [GenerateForecast, hv, hcl] at h ⊢
      exact congrArg some (Except.ok.inj h)
    | none =>
      cases rr with
      | error e => simp [GenerateForecast, hv, hcl] at h
      | ok rates =>
        cases hlr : lookupRate rates (applyDefaults cfg req).TargetCurrency with
        | none => simp [GenerateForecast, hv, hcl, hlr] at h
        | some r =>
          cases hd : dispatchModel sinA (applyDefaults cfg req).ForecastType r
              (applyDefaults cfg req) now with
          | none => simp [GenerateForecast, hv, hcl, hd, hlr] at h
          | some pair =>
            obtain ⟨forecasts, conf⟩ := pair
            simp only [GenerateForecast, hv, hcl, hlr, hd] at h ⊢
            rw [← Except.ok.inj h]
            simp [cacheLookup, cacheStore]

/-- C5: whenever `GenerateForecast` returns an error the cache is left
exactly as it was; a response is stored only when the call returns `.ok`;
and a non-empty model name outside {linear, exponential, moving_average}
reaching dispatch yields the distinct "unsupported forecast type" failure,
never a silent substitution of the linear model. -/
theorem C5_error_leaves_cache (cfg : Config) (sinA : ℚ → ℚ)
    (rr : Except String (List (String × ℚ))) (now : ℤ) (cache : Cache)
    (req : ForecastRequest) :
    (∀ e, (GenerateForecast cfg sinA rr now cache req).1 = .error e →
      (GenerateForecast cfg sinA rr now cache req).2.2 = cache)
  ∧ (∀ resp, (GenerateForecast cfg sinA rr now cache req).1 = .ok resp →
      (GenerateForecast cfg sinA rr now cache req).2.2 = cache
        ∨ (GenerateForecast cfg sinA rr now cache req).2.2 =
            cacheStore cache (generateCacheKey (applyDefaults cfg req)) resp)
  ∧ (validateForecastRequest cfg req = none →
      req.ForecastType ≠ "" →
      req.ForecastType ∉ (["linear", "exponential", "moving_average"] : List String) →
      cacheLookup cache (generateCacheKey (applyDefaults cfg req)) = none →
      ∀ rates, rr = Except.ok rates →
      ∀ r, lookupRate rates req.TargetCurrency = some r →
      (GenerateForecast cfg sinA rr now cache req).1 =
        .error ("unsupported forecast type: " ++ req.ForecastType)) := by
  refine ⟨?_, ?_, ?_⟩
  · intro e he
    rcases GenerateForecast_cases cfg sinA rr now cache req with h | ⟨resp, hok, _⟩
    · exact h
    · rw [he] at hok
      exact absurd hok (by simp)
  · intro resp hok
    rcases GenerateForecast_cases cfg sinA rr now cache req with h | ⟨resp2, hok2, hst⟩
    · exact Or.inl h
    · rw [hok] at hok2
      rw [← Except.ok.inj hok2] at hst
      exact Or.inr hst
  · intro hv hne hmem hcl rates hrr r hlr
    subst hrr
    have hty := applyDefaults_ForecastType_of_ne cfg req hne
    have hd : dispatchModel sinA req.ForecastType r (applyDefaults cfg req) now = none :=
      dispatchModel_eq_none sinA req.ForecastType r _ now hmem
    have hlr2 : lookupRate rates (applyDefaults cfg req).TargetCurrency = some r := by
      rw [applyDefaults_TargetCurrency]
      exact hlr
    simp [GenerateForecast, hv, hcl, hlr2, hd, hty]

/-- C5 witness: a concrete call with model name "cubic" fails with the
unsupported-forecast-type error and leaves the (empty) cache empty. -/
theorem C5_error_leaves_cache_witness :
    (GenerateForecast ⟨30, ["USD", "EUR"]⟩ (fun _ => 0) (.ok [("EUR", 11/10)]) 0 []
        ⟨"USD", "EUR", 1000, 5, "cubic"⟩).1 = .error "unsupported forecast type: cubic"
  ∧ (GenerateForecast ⟨30, ["USD", "EUR"]⟩ (fun _ => 0) (.ok [("EUR", 11/10)]) 0 []
        ⟨"USD", "EUR", 1000, 5, "cubic"⟩).2.2 = [] := by
  have herr := (C5_error_leaves_cache ⟨30, ["USD", "EUR"]⟩ (fun _ => 0)
      (.ok [("EUR", 11/10)]) 0 [] ⟨"USD", "EUR", 1000, 5, "cubic"⟩).2.2
    (by norm_num [validateForecastRequest, isCurrencySupported]; decide) (by simp) (by simp)
    rfl [("EUR", 11/10)] rfl (11/10) (by simp [lookupRate])
  exact ⟨herr, (C5_error_leaves_cache ⟨30, ["USD", "EUR"]⟩ (fun _ => 0)
    (.ok [("EUR", 11/10)]) 0 [] ⟨"USD", "EUR", 1000, 5, "cubic"⟩).1 _ herr⟩

/-- C10: `GenerateForecast` (after successful validation) and
`GenerateMultiCurrencyForecast` (always) write their defaults back through
the caller's request pointer: a zero period count becomes the configured
default, an empty model name becomes "linear", so the request is not left
unchanged. -/
theorem C10_defaults_mutate_request (cfg : Config) (sinA : ℚ → ℚ)
    (rr : Except String (List (String × ℚ))) (now : ℤ) (cache : Cache)
    (req : ForecastRequest) (mreq : MultiCurrencyForecastRequest) :
    (validateForecastRequest cfg req = none →
      ((req.Periods = 0 →
          (GenerateForecast cfg sinA rr now cache req).2.1.Periods =
            cfg.DefaultForecastPeriods)
        ∧ (req.ForecastType = "" →
            (GenerateForecast cfg sinA rr now cache req).2.1.ForecastType = "linear")
        ∧ (req.Periods = 0 → cfg.DefaultForecastPeriods ≠ 0 →
            (GenerateForecast cfg sinA rr now cache req).2.1 ≠ req)))
  ∧ (mreq.Periods = 0 →
      (GenerateMultiCurrencyForecast cfg sinA rr now mreq).2.Periods =
        cfg.DefaultForecastPeriods)
  ∧ (mreq.ForecastType = "" →
      (GenerateMultiCurrencyForecast cfg sinA rr now mreq).2.ForecastType = "linear") := by
  refine ⟨?_, ?_, ?_⟩
  · intro hv
    have hreq := GenerateForecast_req cfg sinA rr now cache req hv
    refine ⟨fun h0 => ?_, fun h0 => ?_, fun h0 hd0 => ?_⟩
    · rw [hreq]
      simp [applyDefaults, h0]
    · rw [hreq]
      simp [applyDefaults, h0]
    · rw [hreq]
      intro heq
      have hper := congrArg ForecastRequest.Periods heq
      rw [show (applyDefaults cfg req).Periods = cfg.DefaultForecastPeriods by
        simp [applyDefaults, h0], h0] at hper
      exact hd0 hper
  · intro h0
    rw [GenerateMultiCurrencyForecast_req]
    simp [applyDefaultsMulti, h0]
  · intro h0
    rw [GenerateMultiCurrencyForecast_req]
    simp [applyDefaultsMulti, h0]

/-- C10 witness: a concrete request with periods 0 and empty model name is
left with periods 30 and model "linear" after the call. -/
theorem C10_defaults_mutate_request_witness :
    (GenerateForecast ⟨30, ["USD", "EUR"]⟩ (fun _ => 0) (.error "down") 0 []
        ⟨"USD", "EUR", 1000, 0, ""⟩).2.1.Periods = 30
  ∧ (GenerateForecast ⟨30, ["USD", "EUR"]⟩ (fun _ => 0) (.error "down") 0 []
        ⟨"USD", "EUR", 1000, 0, ""⟩).2.1.ForecastType = "linear"
  ∧ (GenerateForecast ⟨30, ["USD", "EUR"]⟩ (fun _ => 0) (.error "down") 0 []
        ⟨"USD", "EUR", 1000, 0, ""⟩).2.1 ≠ ⟨"USD", "EUR", 1000, 0, ""⟩ := by
  have h := (C10_defaults_mutate_request ⟨30, ["USD", "EUR"]⟩ (fun _ => 0) (.error "down") 0 []
      ⟨"USD", "EUR", 1000, 0, ""⟩ ⟨"USD", [], 1, 0, ""⟩).1
    (by norm_num [validateForecastRequest, isCurrencySupported]; decide)
  exact ⟨h.1 rfl, h.2.1 rfl, h.2.2 rfl (by norm_num)⟩

/-- Validation success transfers to a request with the same base, target and
periods and a positive amount. -/
theorem validate_transfer (cfg : Config) (req1 req2 : ForecastRequest)
    (hb : req2.BaseCurrency = req1.BaseCurrency)
    (ht : req2.TargetCurrency = req1.TargetCurrency)
    (hp : req2.Periods = req1.Periods) (ha : 0 < req2.Amount)
    (hv : validateForecastRequest cfg req1 = none) :
    validateForecastRequest cfg req2 = none := by
  rw [validate_none_iff] at hv ⊢
  obtain ⟨h1, h2, _, h4, h5, h6, h7⟩ := hv
  rw [hb, ht, hp]
  exact ⟨h1, h2, ha, h4, h5, h6, h7⟩

/-- Requests agreeing on base, target, model, truncated amount and periods
get the same cache key after defaulting. -/
theorem cacheKey_transfer (cfg : Config) (req1 req2 : ForecastRequest)
    (hb : req2.BaseCurrency = req1.BaseCurrency)
    (ht : req2.TargetCurrency = req1.TargetCurrency)
    (hty : req2.ForecastType = req1.ForecastType)
    (hp : req2.Periods = req1.Periods)
    (hta : truncInt req2.Amount = truncInt req1.Amount) :
    generateCacheKey (applyDefaults cfg req2) = generateCacheKey (applyDefaults cfg req1) := by
  simp [generateCacheKey, applyDefaults, hb, ht, hty, hp, hta]

/-- C6: the cache key is `{base}_{target}_{model}_{int(amount)}_{periods}`
with the amount truncated toward zero; amounts 1000.4 and 1000.9 truncate to
1000 and so collide in the key space, and a second `GenerateForecast` call
that differs from a cached successful one only in such an amount returns the
response cached for the first call. -/
theorem C6_cache_key_truncation :
    (∀ req : ForecastRequest,
      generateCacheKey req = req.BaseCurrency ++ "_" ++ req.TargetCurrency ++ "_" ++
        req.ForecastType ++ "_" ++ intDecimal (truncInt req.Amount) ++ "_" ++
        intDecimal req.Periods)
  ∧ (truncInt (10004/10) = 1000 ∧ truncInt (10009/10) = 1000)
  ∧ (∀ (b t ty : String) (p : ℤ),
      generateCacheKey ⟨b, t, 10004/10, p, ty⟩ = generateCacheKey ⟨b, t, 10009/10, p, ty⟩)
  ∧ (∀ (cfg : Config) (sinA : ℚ → ℚ) (rr1 rr2 : Except String (List (String × ℚ)))
      (now1 now2 : ℤ) (cache : Cache) (req1 req2 : ForecastRequest)
      (resp : ForecastResponse),
      (GenerateForecast cfg sinA rr1 now1 cache req1).1 = .ok resp →
      req2.BaseCurrency = req1.BaseCurrency →
      req2.TargetCurrency = req1.TargetCurrency →
      req2.ForecastType = req1.ForecastType →
      req2.Periods = req1.Periods →
      truncInt req2.Amount = truncInt req1.Amount →
      0 < req2.Amount →
      (GenerateForecast cfg sinA rr2 now2
        (GenerateForecast cfg sinA rr1 now1 cache req1).2.2 req2).1 = .ok resp) := by
  refine ⟨fun req => rfl, ⟨?_, ?_⟩, ?_, ?_⟩
  · norm_num [truncInt]
  · norm_num [truncInt]
  · intro b t ty p
    have h : truncInt (10004/10) = truncInt (10009/10) := by norm_num [truncInt]
    simp [generateCacheKey, h]
  · intro cfg sinA rr1 rr2 now1 now2 cache req1 req2 resp hok hb ht hty hp hta ha
    have hv1 : validateForecastRequest cfg req1 = none := by
      cases hv : validateForecastRequest cfg req1 with
      | some m => simp [GenerateForecast, hv] at hok
      | none => rfl
    have hv2 : validateForecastRequest cfg req2 = none :=
      validate_transfer cfg req1 req2 hb ht hp ha hv1
    have hkey : generateCacheKey (applyDefaults cfg req2)
        = generateCacheKey (applyDefaults cfg req1) :=
      cacheKey_transfer cfg req1 req2 hb ht hty hp hta
    have hcached := GenerateForecast_ok_cached cfg sinA rr1 now1 cache req1 resp hok
    rw [← hkey] at hcached
    generalize (GenerateForecast cfg sinA rr1 now1 cache req1).2.2 = cache1 at hcached ⊢
    simp [GenerateForecast, hv2, hcached]

/-- C6 witness: with a response cached under the key of an amount-1000.4
request, the same request with amount 1000.9 gets it from the cache (even
with the upstream fetch failing). -/
theorem C6_cache_key_truncation_witness :
    (GenerateForecast ⟨5, ["USD", "EUR"]⟩ (fun _ => 0) (.error "down") 0
        (GenerateForecast ⟨5, ["USD", "EUR"]⟩ (fun _ => 0) (.error "down") 0
          [(generateCacheKey (applyDefaults ⟨5, ["USD", "EUR"]⟩
              ⟨"USD", "EUR", 10004/10, 2, "linear"⟩),
            ⟨"USD", "EUR", 11/10, 10004/10, "linear", 2, [], 0, 7/10⟩)]
          ⟨"USD", "EUR", 10004/10, 2, "linear"⟩).2.2
        ⟨"USD", "EUR", 10009/10, 2, "linear"⟩).1
      = .ok ⟨"USD", "EUR", 11/10, 10004/10, "linear", 2, [], 0, 7/10⟩ := by
  refine C6_cache_key_truncation.2.2.2 ⟨5, ["USD", "EUR"]⟩ (fun _ => 0) (.error "down")
    (.error "down") 0 0 _ ⟨"USD", "EUR", 10004/10, 2, "linear"⟩
    ⟨"USD", "EUR", 10009/10, 2, "linear"⟩ ⟨"USD", "EUR", 11/10, 10004/10, "linear", 2, [], 0, 7/10⟩
    ?_ rfl rfl rfl rfl (by norm_num [truncInt]) (by norm_num)
  simp [GenerateForecast, cacheLookup,
    show validateForecastRequest ⟨5, ["USD", "EUR"]⟩ ⟨"USD", "EUR", 10004/10, 2, "linear"⟩
        = none by norm_num [validateForecastRequest, isCurrencySupported]; decide]

/-- C7: the cache key is a pure deterministic function of (base, target,
model, truncated amount, periods): agreement on the five fields gives equal
keys, and a difference in exactly one of the five (the others held equal)
gives different keys. -/
theorem C7_cache_key_field_injective :
    (∀ req1 req2 : ForecastRequest,
      req1.BaseCurrency = req2.BaseCurrency → req1.TargetCurrency = req2.TargetCurrency →
      req1.ForecastType = req2.ForecastType → truncInt req1.Amount = truncInt req2.Amount →
      req1.Periods = req2.Periods → generateCacheKey req1 = generateCacheKey req2)
  ∧ (∀ req1 req2 : ForecastRequest,
      req1.BaseCurrency ≠ req2.BaseCurrency → req1.TargetCurrency = req2.TargetCurrency →
      req1.ForecastType = req2.ForecastType → truncInt req1.Amount = truncInt req2.Amount →
      req1.Periods = req2.Periods → generateCacheKey req1 ≠ generateCacheKey req2)
  ∧ (∀ req1 req2 : ForecastRequest,
      req1.BaseCurrency = req2.BaseCurrency → req1.TargetCurrency ≠ req2.TargetCurrency →
      req1.ForecastType = req2.ForecastType → truncInt req1.Amount = truncInt req2.Amount →
      req1.Periods = req2.Periods → generateCacheKey req1 ≠ generateCacheKey req2)
  ∧ (∀ req1 req2 : ForecastRequest,
      req1.BaseCurrency = req2.BaseCurrency → req1.TargetCurrency = req2.TargetCurrency →
      req1.ForecastType ≠ req2.ForecastType → truncInt req1.Amount = truncInt req2.Amount →
      req1.Periods = req2.Periods → generateCacheKey req1 ≠ generateCacheKey req2)
  ∧ (∀ req1 req2 : ForecastRequest,
      req1.BaseCurrency = req2.BaseCurrency → req1.TargetCurrency = req2.TargetCurrency →
      req1.ForecastType = req2.ForecastType → truncInt req1.Amount ≠ truncInt req2.Amount →
      req1.Periods = req2.Periods → generateCacheKey req1 ≠ generateCacheKey req2)
  ∧ (∀ req1 req2 : ForecastRequest,
      req1.BaseCurrency = req2.BaseCurrency → req1.TargetCurrency = req2.TargetCurrency →
      req1.ForecastType = req2.ForecastType → truncInt req1.Amount = truncInt req2.Amount →
      req1.Periods ≠ req2.Periods → generateCacheKey req1 ≠ generateCacheKey req2) := by
  refine ⟨?_, ?_, ?_, ?_, ?_, ?_⟩
  · intro req1 req2 hb ht hty hta hp
    simp [generateCacheKey, hb, ht, hty, hta, hp]
  · intro req1 req2 hb ht hty hta hp hkeys
    have h := congrArg String.data hkeys
    rw [generateCacheKey_data, generateCacheKey_data, ht, hty, hta, hp] at h
    exact hb (String.ext (List.append_cancel_right h))
  · intro req1 req2 hb ht hty hta hp hkeys
    have h := congrArg String.data hkeys
    rw [generateCacheKey_data, generateCacheKey_data, hb, hty, hta, hp] at h
    have h2 := (List.cons.inj (List.append_cancel_left h)).2
    exact ht (String.ext (List.append_cancel_right h2))
  · intro req1 req2 hb ht hty hta hp hkeys
    have h := congrArg String.data hkeys
    rw [generateCacheKey_data, generateCacheKey_data, hb, ht, hta, hp] at h
    have h2 := (List.cons.inj (List.append_cancel_left h)).2
    have h3 := (List.cons.inj (List.append_cancel_left h2)).2
    exact hty (String.ext (List.append_cancel_right h3))
  · intro req1 req2 hb ht hty hta hp hkeys
    have h := congrArg String.data hkeys
    rw [generateCacheKey_data, generateCacheKey_data, hb, ht, hty, hp] at h
    have h2 := (List.cons.inj (List.append_cancel_left h)).2
    have h3 := (List.cons.inj (List.append_cancel_left h2)).2
    have h4 := (List.cons.inj (List.append_cancel_left h3)).2
    exact hta (intDecimal_inj (congrArg String.mk (List.append_cancel_right h4)))
  · intro req1 req2 hb ht hty hta hp hkeys
    have h := congrArg String.data hkeys
    rw [generateCacheKey_data, generateCacheKey_data, hb, ht, hty, hta] at h
    have h2 := (List.cons.inj (List.append_cancel_left h)).2
    have h3 := (List.cons.inj (List.append_cancel_left h2)).2
    have h4 := (List.cons.inj (List.append_cancel_left h3)).2
    have h5 := (List.cons.inj (List.append_cancel_left h4)).2
    exact hp (intDecimal_inj (congrArg String.mk h5))

/-- C7 witness: concrete same-fingerprint requests collide (amounts 1000.4
and 1000.9), and changing each single field in turn changes the key. -/
theorem C7_cache_key_field_injective_witness :
    generateCacheKey ⟨"USD", "EUR", 10004/10, 5, "linear"⟩
        = generateCacheKey ⟨"USD", "EUR", 10009/10, 5, "linear"⟩
  ∧ generateCacheKey ⟨"USD", "EUR", 1000, 5, "linear"⟩
        ≠ generateCacheKey ⟨"GBP", "EUR", 1000, 5, "linear"⟩
  ∧ generateCacheKey ⟨"USD", "EUR", 1000, 5, "linear"⟩
        ≠ generateCacheKey ⟨"USD", "GBP", 1000, 5, "linear"⟩
  ∧ generateCacheKey ⟨"USD", "EUR", 1000, 5, "linear"⟩
        ≠ generateCacheKey ⟨"USD", "EUR", 1000, 5, "exponential"⟩
  ∧ generateCacheKey ⟨"USD", "EUR", 1000, 5, "linear"⟩
        ≠ generateCacheKey ⟨"USD", "EUR", 2000, 5, "linear"⟩
  ∧ generateCacheKey ⟨"USD", "EUR", 1000, 5, "linear"⟩
        ≠ generateCacheKey ⟨"USD", "EUR", 1000, 6, "linear"⟩ :=
  ⟨C7_cache_key_field_injective.1 _ _ rfl rfl rfl (by norm_num [truncInt]) rfl,
    C7_cache_key_field_injective.2.1 _ _ (by decide) rfl rfl (by norm_num [truncInt]) rfl,
    C7_cache_key_field_injective.2.2.1 _ _ rfl (by decide) rfl (by norm_num [truncInt]) rfl,
    C7_cache_key_field_injective.2.2.2.1 _ _ rfl rfl (by decide) (by norm_num [truncInt]) rfl,
    C7_cache_key_field_injective.2.2.2.2.1 _ _ rfl rfl rfl (by norm_num [truncInt]) rfl,
    C7_cache_key_field_injective.2.2.2.2.2 _ _ rfl rfl rfl (by norm_num [truncInt]) (by decide)⟩

/-- Keys of the per-currency forecast map built by
`GenerateMultiCurrencyForecast`: exactly the requested currencies that have
a fetched rate, in request order. -/
theorem map_fst_filterMap_lookup (rates : List (String × ℚ))
    (F : String → ℚ → List ForecastPeriod) :
    ∀ l : List String,
      (List.filterMap (fun currency =>
          match lookupRate rates currency with
          | none => none
          | some rate => some (currency, F currency rate)) l).map Prod.fst
        = l.filter (fun c => (lookupRate rates c).isSome) := by
  intro l
  induction l with
  | nil => rfl
  | cons c rest ih =>
    cases h : lookupRate rates c <;>
      simp [List.filterMap_cons, List.filter_cons, h, ih]

theorem mem_filterMap_lookup (rates : List (String × ℚ))
    (F : String → ℚ → List ForecastPeriod) :
    ∀ (l : List String) (c : String),
      (∃ fps, (c, fps) ∈ List.filterMap (fun currency =>
          match lookupRate rates currency with
          | none => none
          | some rate => some (currency, F currency rate)) l) ↔
        c ∈ l ∧ (lookupRate rates c).isSome = true := by
  intro l c
  induction l with
  | nil => simp
  | cons d rest ih =>
    cases h : lookupRate rates d with
    | none =>
      simp only [List.filterMap_cons, h, ih, List.mem_cons]
      constructor
      · rintro ⟨hc, hs⟩
        exact ⟨Or.inr hc, hs⟩
      · rintro ⟨hc | hc, hs⟩
        · rw [hc] at hs
          rw [h] at hs
          simp at hs
        · exact ⟨hc, hs⟩
    | some rate =>
      simp only [List.filterMap_cons, h, List.mem_cons]
      constructor
      · rintro ⟨fps, hmem | hmem⟩
        · obtain ⟨hc, _⟩ := Prod.mk.inj hmem
          subst hc
          exact ⟨Or.inl rfl, by rw [h]; rfl⟩
        · obtain ⟨hc, hs⟩ := (ih).mp ⟨fps, hmem⟩
          exact ⟨Or.inr hc, hs⟩
      · rintro ⟨hc | hc, hs⟩
        · subst hc
          exact ⟨F c rate, Or.inl rfl⟩
        · obtain ⟨fps, hmem⟩ := (ih).mpr ⟨hc, hs⟩
          exact ⟨fps, Or.inr hmem⟩

/-- C9: when the upstream fetch succeeds, `GenerateMultiCurrencyForecast`
raises no error; requested currencies absent from the fetched rate mapping
are skipped and get no entry, while every requested currency with a rate
gets one — e.g. requesting [EUR, GBP, ZZZ] against rates for EUR and GBP
yields exactly the keys [EUR, GBP]. -/
theorem C9_multi_currency_skip (cfg : Config) (sinA : ℚ → ℚ)
    (rates : List (String × ℚ)) (now : ℤ) (req : MultiCurrencyForecastRequest) :
    (∀ resp, (GenerateMultiCurrencyForecast cfg sinA (.ok rates) now req).1 = .ok resp →
        resp.Currencies.map Prod.fst
            = req.Currencies.filter (fun c => (lookupRate rates c).isSome)
      ∧ (∀ c, (∃ fps, (c, fps) ∈ resp.Currencies) ↔
            c ∈ req.Currencies ∧ (lookupRate rates c).isSome = true))
  ∧ (∃ resp, (GenerateMultiCurrencyForecast cfg sinA (.ok rates) now req).1 = .ok resp)
  ∧ (∀ resp, (GenerateMultiCurrencyForecast ⟨30, ["USD", "EUR", "GBP"]⟩ sinA
        (.ok [("EUR", 11/10), ("GBP", 9/10)]) now
        ⟨"USD", ["EUR", "GBP", "ZZZ"], 1000, 5, "linear"⟩).1 = .ok resp →
      resp.Currencies.map Prod.fst = ["EUR", "GBP"]) := by
  refine ⟨?_, ⟨_, rfl⟩, ?_⟩
  · intro resp h
    have hresp := Except.ok.inj h
    constructor
    · rw [← hresp]
      exact map_fst_filterMap_lookup rates _ _
    · intro c
      rw [← hresp]
      exact mem_filterMap_lookup rates _ _ c
  · intro resp h
    have hresp := Except.ok.inj h
    rw [← hresp]
    rw [map_fst_filterMap_lookup ([("EUR", 11/10), ("GBP", 9/10)]) _ _]
    simp [applyDefaultsMulti, lookupRate, List.filter_cons]

/-- C9 witness: the skip behaviour at a concrete input (periods 0, so the
per-currency series are empty): requesting [EUR, GBP, ZZZ] against rates
for EUR and GBP yields entries exactly for EUR and GBP. -/
theorem C9_multi_currency_skip_witness :
    (⟨"USD", 1000, "linear", 0, [("EUR", []), ("GBP", [])], 0⟩ :
        MultiCurrencyForecastResponse).Currencies.map Prod.fst
      = (["EUR", "GBP", "ZZZ"] : List String).filter
          (fun c => (lookupRate [("EUR", 11/10), ("GBP", 9/10)] c).isSome) :=
  ((C9_multi_currency_skip ⟨0, ["USD", "EUR", "GBP"]⟩ (fun _ => 0)
      [("EUR", 11/10), ("GBP", 9/10)] 0 ⟨"USD", ["EUR", "GBP", "ZZZ"], 1000, 0, "linear"⟩).1
    ⟨"USD", 1000, "linear", 0, [("EUR", []), ("GBP", [])], 0⟩ rfl).1

/-! ### Go slice aliasing micro-model (cache-entry immutability)

`models.ForecastResponse.Forecasts` is a Go slice (`[]ForecastPeriod`).
The store `fs.cache[cacheKey] = *response` (forecasting_service.go lines
102–105) copies the struct by value, but a Go struct copy duplicates only
the slice *header*; the backing array stays shared between the stored map
value and the `response` pointer returned to the caller (line 108).  The
heap below makes that backing array explicit: a response holds an index
into a heap of arrays, and copying a response copies the index, not the
array. -/

structure SliceHeap where
  arrays : List (List ForecastPeriod)
deriving DecidableEq, Repr

/-- A `ForecastResponse` as Go lays it out for the aliasing question:
`ForecastsRef` is the slice header's pointer into the heap (the scalar
fields, represented here by `Amount`, really are copied by value). -/
structure ForecastResponseRef where
  Amount : ℚ
  ForecastsRef : ℕ
deriving DecidableEq, Repr

/-- Dereference a slice: the backing array of forecasts. -/
def SliceHeap.readArray (h : SliceHeap) (r : ℕ) : List ForecastPeriod :=
  h.arrays.getD r []

/-- The caller-side mutation `resp.Forecasts[i].Rate = v`: writes through
the slice into the shared backing array. -/
def SliceHeap.writeRate (h : SliceHeap) (r i : ℕ) (v : ℚ) : SliceHeap :=
  match (h.readArray r)[i]? with
  | none => h
  | some p => ⟨h.arrays.set r ((h.readArray r).set i { p with Rate := v })⟩

def cacheLookupRef (cache : List (String × ForecastResponseRef)) (k : String) :
    Option ForecastResponseRef :=
  match cache with
  | [] => none
  | (k', v) :: rest => if k' = k then some v else cacheLookupRef rest k

/-- Lines 102–108 of the source: store the response struct by value in the
cache, then return the response pointer.  The stored copy and the returned
value carry the same `ForecastsRef` — this is exactly Go's struct-copy
semantics for a struct containing a slice. -/
def storeAndReturn (cache : List (String × ForecastResponseRef)) (k : String)
    (resp : ForecastResponseRef) :
    List (String × ForecastResponseRef) × ForecastResponseRef :=
  ((k, resp) :: cache, resp)

/-- C8 exhibit (code bug): cache a response whose forecasts array holds one
period with rate 1.2, then mutate the *returned* response's
`Forecasts[0].Rate` to 999: reading the *cached* entry's forecasts through
the post-mutation heap now yields rate 999 ≠ 1.2 — the cached entry did not
stay as stored, contradicting the claimed immutability. -/
theorem C8_slice_aliasing_bug :
    ((SliceHeap.writeRate ⟨[[⟨1, 1, 12/10, 1200, 0, 0⟩]]⟩
        (storeAndReturn [] "k" ⟨1000, 0⟩).2.ForecastsRef 0 999).readArray
      (match cacheLookupRef (storeAndReturn [] "k" ⟨1000, 0⟩).1 "k" with
        | some stored => stored.ForecastsRef
        | none => 99)).map (·.Rate) = [999]
  ∧ (((⟨[[⟨1, 1, 12/10, 1200, 0, 0⟩]]⟩ : SliceHeap).readArray 0).map (·.Rate) = [12/10])
  ∧ (999 : ℚ) ≠ 12/10 := by
  refine ⟨?_, rfl, by norm_num⟩
  rfl

end ForecastService
